import Mathlib

/-!
Shallow embedding of the conversational routing core of the
`linkedin_career_coach` repository, and proofs about it.

Embedded sources:
 - `src/routing.py` (the router decision function),
 - `src/agents/intent_classifier_agent.py` (LLM intent classification and the
   keyword fallback),
 - `src/agents/job_fit_agent.py`, `src/agents/career_coach_agent.py`,
   `src/agents/profile_analyzer_agent.py`, `src/agents/content_enhancer_agent.py`
   (the chat-mode handlers and their prompt-context builders),
 - `src/graph_utils.py` (the per-handler graph nodes and how their results are
   merged into the turn state),
 - `src/scraper/linkedin_scraper.py` (`sanitize_profile`).

Python's dynamically-typed dictionaries are modelled by the inductive type
`PyVal`; dictionaries are association lists with distinct keys in insertion
order, which is how CPython dicts behave for the programs embedded here.
The text-completion collaborator (`self.llm.invoke`) is modelled as a function
argument returning `Except String String`: `Except.ok content` is a response
whose extracted text is `content`, `Except.error e` is a raised exception whose
message is `e`.
-/

namespace LinkedinCareerCoach

/-- A Python value as used by the embedded code: strings, numbers, booleans,
lists, string-keyed dictionaries, and `None`.  Python floats only occur in the
embedded code as literals that are stored and compared, never computed with,
so they are modelled as exact rationals (`0.7` becomes `mkRat 7 10`). -/
inductive PyVal where
  | str : String → PyVal
  | num : ℚ → PyVal
  | bool : Bool → PyVal
  | list : List PyVal → PyVal
  | dict : List (String × PyVal) → PyVal
  | none : PyVal
deriving Repr

mutual
/-- Structural (Boolean) equality on `PyVal`, used to build a kernel-reducing
`DecidableEq` instance for the nested inductive type. -/
def PyVal.beq : PyVal → PyVal → Bool
  | .str a, .str b => decide (a = b)
  | .num a, .num b => decide (a = b)
  | .bool a, .bool b => decide (a = b)
  | .list a, .list b => PyVal.beqList a b
  | .dict a, .dict b => PyVal.beqDict a b
  | .none, .none => true
  | _, _ => false
termination_by structural a => a

/-- Elementwise `PyVal.beq` on lists. -/
def PyVal.beqList : List PyVal → List PyVal → Bool
  | [], [] => true
  | x :: xs, y :: ys => PyVal.beq x y && PyVal.beqList xs ys
  | _, _ => false
termination_by structural a => a

/-- Entrywise `PyVal.beq` on dictionaries. -/
def PyVal.beqDict : List (String × PyVal) → List (String × PyVal) → Bool
  | [], [] => true
  | (k1, v1) :: xs, (k2, v2) :: ys =>
    decide (k1 = k2) && PyVal.beq v1 v2 && PyVal.beqDict xs ys
  | _, _ => false
termination_by structural a => a
end

mutual
theorem PyVal.beq_iff : ∀ a b : PyVal, PyVal.beq a b = true ↔ a = b
  | .str a, .str b => by simp [PyVal.beq]
  | .num a, .num b => by simp [PyVal.beq]
  | .bool a, .bool b => by simp [PyVal.beq]
  | .list a, .list b => by
      rw [show PyVal.beq (.list a) (.list b) = PyVal.beqList a b from rfl,
        PyVal.beqList_iff]
      simp
  | .dict a, .dict b => by
      rw [show PyVal.beq (.dict a) (.dict b) = PyVal.beqDict a b from rfl,
        PyVal.beqDict_iff]
      simp
  | .none, .none => by simp [PyVal.beq]
  | .str _, .num _ => by simp [PyVal.beq]
  | .str _, .bool _ => by simp [PyVal.beq]
  | .str _, .list _ => by simp [PyVal.beq]
  | .str _, .dict _ => by simp [PyVal.beq]
  | .str _, .none => by simp [PyVal.beq]
  | .num _, .str _ => by simp [PyVal.beq]
  | .num _, .bool _ => by simp [PyVal.beq]
  | .num _, .list _ => by simp [PyVal.beq]
  | .num _, .dict _ => by simp [PyVal.beq]
  | .num _, .none => by simp [PyVal.beq]
  | .bool _, .str _ => by simp [PyVal.beq]
  | .bool _, .num _ => by simp [PyVal.beq]
  | .bool _, .list _ => by simp [PyVal.beq]
  | .bool _, .dict _ => by simp [PyVal.beq]
  | .bool _, .none => by simp [PyVal.beq]
  | .list _, .str _ => by simp [PyVal.beq]
  | .list _, .num _ => by simp [PyVal.beq]
  | .list _, .bool _ => by simp [PyVal.beq]
  | .list _, .dict _ => by simp [PyVal.beq]
  | .list _, .none => by simp [PyVal.beq]
  | .dict _, .str _ => by simp [PyVal.beq]
  | .dict _, .num _ => by simp [PyVal.beq]
  | .dict _, .bool _ => by simp [PyVal.beq]
  | .dict _, .list _ => by simp [PyVal.beq]
  | .dict _, .none => by simp [PyVal.beq]
  | .none, .str _ => by simp [PyVal.beq]
  | .none, .num _ => by simp [PyVal.beq]
  | .none, .bool _ => by simp [PyVal.beq]
  | .none, .list _ => by simp [PyVal.beq]
  | .none, .dict _ => by simp [PyVal.beq]

theorem PyVal.beqList_iff : ∀ a b : List PyVal, PyVal.beqList a b = true ↔ a = b
  | [], [] => by simp [PyVal.beqList]
  | [], _ :: _ => by simp [PyVal.beqList]
  | _ :: _, [] => by simp [PyVal.beqList]
  | x :: xs, y :: ys => by
      rw [show PyVal.beqList (x :: xs) (y :: ys)
        = (PyVal.beq x y && PyVal.beqList xs ys) from rfl]
      rw [Bool.and_eq_true, PyVal.beq_iff, PyVal.beqList_iff]
      simp

theorem PyVal.beqDict_iff :
    ∀ a b : List (String × PyVal), PyVal.beqDict a b = true ↔ a = b
  | [], [] => by simp [PyVal.beqDict]
  | [], _ :: _ => by simp [PyVal.beqDict]
  | _ :: _, [] => by simp [PyVal.beqDict]
  | (k1, v1) :: xs, (k2, v2) :: ys => by
      rw [show PyVal.beqDict ((k1, v1) :: xs) ((k2, v2) :: ys)
        = (decide (k1 = k2) && PyVal.beq v1 v2 && PyVal.beqDict xs ys) from rfl]
      rw [Bool.and_eq_true, Bool.and_eq_true, PyVal.beq_iff, PyVal.beqDict_iff]
      simp [and_assoc]
end

instance : DecidableEq PyVal := fun a b => decidable_of_iff _ (PyVal.beq_iff a b)

/-- Python truthiness: empty strings, zero, `False`, empty containers and
`None` are falsy, everything else is truthy. -/
def PyVal.truthy : PyVal → Bool
  | .str s => decide (¬ s = "")
  | .num q => decide (¬ q = 0)
  | .bool b => b
  | .list l => decide (¬ l = [])
  | .dict d => decide (¬ d = [])
  | .none => false

/-- Dictionary lookup: `Option.none` when the key is absent.  The embedded
dictionaries have distinct keys, so first-match lookup is dictionary lookup. -/
def dget (d : List (String × PyVal)) (k : String) : Option PyVal :=
  match d with
  | [] => Option.none
  | (k1, v) :: rest => if k1 = k then some v else dget rest k

/-- Python `d.get(k, default)`: the stored value when the key is present
(even when that value is `None`), otherwise the default. -/
def pyGetD (d : List (String × PyVal)) (k : String) (default : PyVal) : PyVal :=
  match dget d k with
  | some v => v
  | Option.none => default

/-- Python `d.get(k)` (default `None`). -/
def pyGet (d : List (String × PyVal)) (k : String) : PyVal :=
  pyGetD d k PyVal.none

mutual
/-- Python `repr` restricted to the values the embedded code interpolates:
strings are single-quoted (modelled for strings containing no quote, backslash
or control characters, which holds for every concrete value used here), lists
and dictionaries print recursively, booleans print `True`/`False` and `None`
prints `None`.  The decimal printing of floats is not modelled (no claim
interpolates a bare number), so numbers print as a placeholder. -/
def pyRepr : PyVal → String
  | .str s => "'" ++ s ++ "'"
  | .num _ => "<float>"
  | .bool b => if b then "True" else "False"
  | .list l => "[" ++ String.intercalate ", " (pyReprList l) ++ "]"
  | .dict d => "\x7b" ++ String.intercalate ", " (pyReprDict d) ++ "\x7d"
  | .none => "None"
termination_by structural v => v

/-- `pyRepr` of each element of a list. -/
def pyReprList : List PyVal → List String
  | [] => []
  | v :: vs => pyRepr v :: pyReprList vs
termination_by structural l => l

/-- `pyRepr` of each entry of a dictionary. -/
def pyReprDict : List (String × PyVal) → List String
  | [] => []
  | (k, v) :: vs => ("'" ++ k ++ "': " ++ pyRepr v) :: pyReprDict vs
termination_by structural l => l
end

/-- Python `str()` as applied by f-string interpolation: a string interpolates
as itself, every other value as its `repr`. -/
def pyStr : PyVal → String
  | .str s => s
  | v => pyRepr v

/-- Python slicing `s[:n]`: the first `n` characters. -/
def strTake (s : String) (n : Nat) : String := String.mk (s.data.take n)

/-- Python `s.lower()` (the questions and keywords involved are ASCII, where
`Char.toLower` agrees with Python). -/
def strLower (s : String) : String := String.mk (s.data.map Char.toLower)

/-- Python `s.strip()`: remove leading and trailing whitespace. -/
def strStrip (s : String) : String :=
  String.mk (((s.data.dropWhile Char.isWhitespace).reverse.dropWhile
    Char.isWhitespace).reverse)

/-- Python's substring test `pat in s`. -/
def strContains (s pat : String) : Bool :=
  s.data.tails.any (fun t => pat.data.isPrefixOf t)

/-! ## Turn state and the router (`src/state.py`, `src/routing.py`) -/

/-- The value the router returns: `END` (LangGraph's terminate sentinel) or the
value of the next node to execute.  The code's type annotation promises a node
name string, and `return intent` returns whatever value the classification's
`intent` key holds, so `node` carries a `PyVal`. -/
inductive Route where
  | END : Route
  | node : PyVal → Route
deriving Repr, DecidableEq

/-- The turn state (`State` in `src/state.py`) as read by the router.  Fields
the router only reads through `state.get(...)` are stored as the `PyVal` that
`get` returns (`PyVal.none` when the key is absent); `error` is an `Option`
because the router tests the key's presence (`"error" in state`).  The four
handler-result slots and `intent_classification` hold the result dictionaries
the graph nodes in `src/graph_utils.py` write there, or are absent; the code
only ever writes non-`None` dictionaries to those channels.  The remaining
state keys (`profile`, `session_id`, `chat_history`, `job_description`,
`profile_url`) are never read by the router and are not modelled here. -/
structure TurnState where
  command : PyVal
  user_question : PyVal
  error : Option PyVal
  force_end : PyVal
  coaching : Option (List (String × PyVal))
  analysis : Option (List (String × PyVal))
  job_fit : Option (List (String × PyVal))
  enhanced_content : Option (List (String × PyVal))
  intent_classification : Option (List (String × PyVal))

/-- One disjunct of the router's freshness check (`src/routing.py`, lines
35-38): the slot is present, truthy (a non-empty dictionary), and its
`user_question` equals the state's `user_question`. -/
def slotFresh (slot : Option (List (String × PyVal))) (q : PyVal) : Bool :=
  match slot with
  | some d => decide (¬ d = []) && decide (pyGet d "user_question" = q)
  | Option.none => false

/-- The tail of the router (`src/routing.py`, lines 45-55): follow a present,
truthy classification's truthy `intent`, otherwise fall back to the career
coach. -/
def routerIntent (o : Option (List (String × PyVal))) : Route :=
  match o with
  | some ic =>
    if decide (¬ ic = []) then
      if (pyGet ic "intent").truthy then Route.node (pyGet ic "intent")
      else Route.node (PyVal.str "career_coach_agent")
    else Route.node (PyVal.str "career_coach_agent")
  | Option.none => Route.node (PyVal.str "career_coach_agent")

/-- The router (`src/routing.py`, `router`): terminate on a present `error`
key or truthy `force_end`; terminate when in chat mode some handler-result
slot answers the current question; otherwise follow a truthy classified
intent; otherwise default to the career coach. -/
def router (s : TurnState) : Route :=
  if s.error.isSome || s.force_end.truthy then Route.END
  else if decide (s.command = PyVal.str "chat")
      && (slotFresh s.coaching s.user_question
        || slotFresh s.analysis s.user_question
        || slotFresh s.job_fit s.user_question
        || slotFresh s.enhanced_content s.user_question) then
    Route.END
  else routerIntent s.intent_classification

/-- The graph node for the job-fit agent (`src/graph_utils.py`,
`job_fit_node`) returns a one-key partial state mapping `job_fit` to the
handler's result, which LangGraph merges into the turn state by key
overwrite; every other modelled field is unchanged. -/
def mergeJobFit (s : TurnState) (result : List (String × PyVal)) : TurnState :=
  { s with job_fit := some result }

/-- The graph node for the career coach (`src/graph_utils.py`,
`career_coach_node`) merges its result under the `coaching` key. -/
def mergeCoaching (s : TurnState) (result : List (String × PyVal)) :
    TurnState :=
  { s with coaching := some result }

/-- The graph node for the profile analyzer (`src/graph_utils.py`,
`profile_analyzer_node`) merges its result under the `analysis` key. -/
def mergeAnalysis (s : TurnState) (result : List (String × PyVal)) :
    TurnState :=
  { s with analysis := some result }

/-- The graph node for the content enhancer (`src/graph_utils.py`,
`content_enhancer_node`) merges its result under the `enhanced_content`
key. -/
def mergeEnhancedContent (s : TurnState) (result : List (String × PyVal)) :
    TurnState :=
  { s with enhanced_content := some result }

/-! ## Intent classification (`src/agents/intent_classifier_agent.py`) -/

/-- The profile-analysis keyword group of `_fallback_classification`. -/
def profileKeywords : List String :=
  ["analyze", "strengths", "weaknesses", "profile analysis", "what are my"]

/-- The job-fit keyword group of `_fallback_classification`. -/
def jobFitKeywords : List String :=
  ["job fit", "match", "requirements", "score", "how well", "fit for", "qualify"]

/-- The content-enhancement keyword group of `_fallback_classification`. -/
def contentKeywords : List String :=
  ["rewrite", "enhance", "improve", "about section", "headline", "experience",
    "make my", "better"]

/-- Python `any(word in question for word in words)`. -/
def anyKeyword (words : List String) (question : String) : Bool :=
  words.any (fun w => strContains question w)

/-- The keyword fallback (`_fallback_classification`): lower-case the question
and test the three keyword groups in order, returning the first matched group's
intent at confidence 0.7; default to the career coach at confidence 0.5. -/
def fallbackClassification (user_question : String) (session_id : PyVal) :
    List (String × PyVal) :=
  let question := strLower user_question
  if anyKeyword profileKeywords question then
    [("intent", PyVal.str "profile_analyzer_agent"),
     ("confidence", PyVal.num (mkRat 7 10)),
     ("reasoning", PyVal.str "Fallback: Contains profile analysis keywords"),
     ("session_id", session_id),
     ("success", PyVal.bool true)]
  else if anyKeyword jobFitKeywords question then
    [("intent", PyVal.str "job_fit_agent"),
     ("confidence", PyVal.num (mkRat 7 10)),
     ("reasoning", PyVal.str "Fallback: Contains job fit keywords"),
     ("session_id", session_id),
     ("success", PyVal.bool true)]
  else if anyKeyword contentKeywords question then
    [("intent", PyVal.str "content_enhancer_agent"),
     ("confidence", PyVal.num (mkRat 7 10)),
     ("reasoning", PyVal.str "Fallback: Contains content enhancement keywords"),
     ("session_id", session_id),
     ("success", PyVal.bool true)]
  else
    [("intent", PyVal.str "career_coach_agent"),
     ("confidence", PyVal.num (mkRat 1 2)),
     ("reasoning", PyVal.str "Fallback: Defaulted to career coach"),
     ("session_id", session_id),
     ("success", PyVal.bool true)]

/-- The four valid handler names checked by `classify_intent`. -/
def valid_intents : List String :=
  ["profile_analyzer_agent", "job_fit_agent", "content_enhancer_agent",
    "career_coach_agent"]

/-- Python `result.get("intent") not in valid_intents`, negated: the value is
one of the four valid name strings (a non-string value equals none of them). -/
def isValidIntent : PyVal → Bool
  | PyVal.str s => valid_intents.contains s
  | _ => false

/-- The validation-and-build step of `classify_intent` (lines 70-92) applied
to a successfully parsed dictionary `result`: an invalid `intent` is
overwritten in place with the career-coach default at confidence 0.5 before
the return dictionary is built; a valid one is returned with defaults 0.8 for
a missing `confidence` and a fixed string for a missing `reasoning`. -/
def classifyFromParsed (result : List (String × PyVal)) (session_id : PyVal) :
    List (String × PyVal) :=
  if ¬ isValidIntent (pyGet result "intent") then
    [("intent", PyVal.str "career_coach_agent"),
     ("confidence", PyVal.num (mkRat 1 2)),
     ("reasoning", PyVal.str "Defaulted to career coach due to unclear intent"),
     ("session_id", session_id),
     ("success", PyVal.bool true)]
  else
    [("intent", pyGet result "intent"),
     ("confidence", pyGetD result "confidence" (PyVal.num (mkRat 4 5))),
     ("reasoning",
       pyGetD result "reasoning" (PyVal.str "Classified based on question content")),
     ("session_id", session_id),
     ("success", PyVal.bool true)]

/-- `classify_intent`: `llmOutcome` abstracts the completion call (`ok` with
the response text, or `error` for a raised exception) and `parse` abstracts
the structured-object extraction (the `re.search` for a braced substring plus
`json.loads`; `Option.none` is a `JSONDecodeError`).  A completion failure or
parse failure degrades to the keyword fallback; a parse producing a non-dict
raises `AttributeError` at `result.get`, which the outer `except` also sends
to the fallback; a parsed dictionary goes through validation. -/
def classify_intent (llmOutcome : Except String String)
    (parse : String → Option PyVal) (user_question : String)
    (session_id : PyVal) : List (String × PyVal) :=
  match llmOutcome with
  | Except.error _ => fallbackClassification user_question session_id
  | Except.ok content =>
    match parse content with
    | some (PyVal.dict result) => classifyFromParsed result session_id
    | some _ => fallbackClassification user_question session_id
    | Option.none => fallbackClassification user_question session_id

/-! ## The shared conversation-context builder

Each of the four agent classes contains a textually identical private method
`_build_conversation_context`, except for the label put in front of assistant
messages: `"Coach"` in `career_coach_agent.py` and `"Assistant"` in the other
three.  It is embedded once, parameterised by that label. -/

/-- One entry of the `chat_history` list: either a dictionary message (where
`role` stands for `msg.get("role", "unknown")` and `content` for
`msg.get("content", "")`) or a non-dictionary entry, carried as the string
`str(msg)` that the fallback branch formats. -/
inductive HistMsg where
  | dict : (role : String) → (content : String) → HistMsg
  | raw : String → HistMsg
deriving Repr, DecidableEq

/-- Python `chat_history[-6:]`: the last `n` elements (the whole list when it
is shorter). -/
def lastN (n : Nat) (l : List α) : List α := l.drop (l.length - n)

/-- The per-message formatting of `_build_conversation_context`: user and
assistant messages become labelled lines with content capped at 150
characters, dictionary messages with any other role are skipped, and
non-dictionary entries become a `Message:` line. -/
def contextPart (assistantLabel : String) : HistMsg → Option String
  | HistMsg.dict role content =>
    if role = "user" then some ("User: " ++ strTake content 150)
    else if role = "assistant" then
      some (assistantLabel ++ ": " ++ strTake content 150)
    else Option.none
  | HistMsg.raw s => some ("Message: " ++ strTake s 150)

/-- `_build_conversation_context`: the fixed sentence on an empty history,
otherwise the formatted last six messages joined by `" | "` (falling back to
the fixed sentence when every recent message was skipped). -/
def buildConversationContext (assistantLabel : String)
    (chat_history : List HistMsg) : String :=
  if chat_history = [] then "This is the beginning of our conversation."
  else
    let parts := (lastN 6 chat_history).filterMap (contextPart assistantLabel)
    if parts = [] then "This is the beginning of our conversation."
    else String.intercalate " | " parts

/-! ## The four chat-mode handlers -/

/-- Extract a list-valued profile field (default `[]`).  The profiles that
reach the handlers come from `sanitize_profile`, which defaults `experience`,
`education` and `skills` to lists. -/
def pyListGet (profile : List (String × PyVal)) (k : String) : List PyVal :=
  match dget profile k with
  | some (PyVal.list l) => l
  | _ => []

/-- `CareerCoachAgent._format_experience`: the first three experience entries
as `"title at company"` lines joined by `"; "` (non-dictionary entries print
as `str(exp)`), or a fixed sentence when the list is empty. -/
def formatExperience (experience : List PyVal) : String :=
  if experience = [] then "No experience data provided"
  else
    String.intercalate "; " ((experience.take 3).map (fun exp =>
      match exp with
      | PyVal.dict d =>
        pyStr (pyGetD d "title" (PyVal.str "Unknown Position")) ++ " at "
          ++ pyStr (pyGetD d "company" (PyVal.str "Unknown Company"))
      | v => pyStr v))

/-- The per-entry formatting of `CareerCoachAgent._format_education`:
dictionary entries with a truthy degree or school become
`"degree from school"` stripped, other dictionary entries are skipped, and
non-dictionary entries print as `str(edu)`. -/
def eduEntry : PyVal → Option String
  | PyVal.dict d =>
    if (pyGetD d "degree" (PyVal.str "")).truthy
        || (pyGetD d "school" (PyVal.str "")).truthy then
      some (strStrip (pyStr (pyGetD d "degree" (PyVal.str "")) ++ " from "
        ++ pyStr (pyGetD d "school" (PyVal.str ""))))
    else Option.none
  | v => some (pyStr v)

/-- `CareerCoachAgent._format_education`: format every entry, keep the first
two formatted lines joined by `"; "`, or a fixed sentence when the list is
empty. -/
def formatEducation (education : List PyVal) : String :=
  if education = [] then "No education data provided"
  else String.intercalate "; " ((education.filterMap eduEntry).take 2)

/-- The system prompt of `JobFitAgent._handle_chat_job_fit`. -/
def jobFitSystemPrompt : String :=
  "You are an expert job fit analyst. When users ask about their job fit, provide detailed analysis with specific insights about their match with the target role. \n\nKey Requirements:\n- Always provide a match score (0-100) at the beginning\n- Use clear markdown formatting with headers and bullet points\n- Be specific about strengths and areas for improvement\n- Include actionable recommendations\n- Be encouraging but honest about gaps\n- Consider the conversation history when providing analysis\n\nResponse Format:\n1. Start with a clear match score and overall assessment\n2. List specific strengths that match the role\n3. Identify key gaps or areas for improvement\n4. Provide actionable recommendations\n5. End with a summary of fit potential"

/-- The user-role payload of `JobFitAgent._handle_chat_job_fit`: the raw
profile fields (the experience value is interpolated whole), the target job,
the conversation digest and the question. -/
def jobFitUserPrompt (name about experience skills : PyVal)
    (job_description user_question context : String) : String :=
  "**User Profile:**\n- Name: " ++ pyStr name ++ "\n- About: " ++ pyStr about
    ++ "\n- Experience: " ++ pyStr experience ++ "\n- Skills: " ++ pyStr skills
    ++ "\n\n**Target Job:** " ++ job_description
    ++ "\n\n**Conversation History:** " ++ context
    ++ "\n\n**User Question:** " ++ user_question
    ++ "\n\nPlease provide a detailed job fit analysis following the specified format. Include a clear match score and be specific about how well they match the role requirements."

/-- `JobFitAgent._handle_chat_job_fit`: build the prompt, call the completion
collaborator, and return the tagged success dictionary, or on a raised
exception the apology dictionary with the error message in its own field. -/
def handleChatJobFit (llm : List (String × String) → Except String String)
    (profile : List (String × PyVal)) (job_description user_question : String)
    (session_id : PyVal) (chat_history : List HistMsg) :
    List (String × PyVal) :=
  let about := pyGetD profile "about" (PyVal.str "")
  let experience := pyGetD profile "experience" (PyVal.list [])
  let skills := pyGetD profile "skills" (PyVal.list [])
  let name := pyGetD profile "name" (PyVal.str "User")
  let context := buildConversationContext "Assistant" chat_history
  let user_prompt :=
    jobFitUserPrompt name about experience skills job_description
      user_question context
  match llm [("system", jobFitSystemPrompt), ("human", user_prompt)] with
  | Except.ok content =>
    [("message", PyVal.str (strStrip content)),
     ("type", PyVal.str "job_fit_analysis"),
     ("session_id", session_id),
     ("user_question", PyVal.str user_question),
     ("success", PyVal.bool true)]
  | Except.error e =>
    [("message", PyVal.str "I apologize, but I encountered an issue analyzing your job fit. Please try rephrasing your question."),
     ("error", PyVal.str e),
     ("type", PyVal.str "error"),
     ("session_id", session_id),
     ("success", PyVal.bool false)]

/-- The system prompt of `CareerCoachAgent._handle_chat_interaction`. -/
def careerCoachSystemPrompt : String :=
  "You are an expert LinkedIn Career Coach and Personal Branding specialist. You have deep expertise in:\n\n- LinkedIn profile optimization and ATS compatibility\n- Career development and transition strategies  \n- Industry trends and job market analysis\n- Skill gap identification and learning paths\n- Professional networking and personal branding\n- Interview preparation and job search tactics\n\nKey Guidelines:\n- Always reference the user's actual profile data when giving advice\n- Provide specific, actionable recommendations with clear next steps\n- Be encouraging but honest about areas needing improvement\n- Suggest concrete resources (courses, certifications, tools) when relevant\n- Use a conversational, supportive tone like a professional mentor\n- If asked about profile sections, provide specific improvement examples\n- For job fit questions, give detailed analysis with reasoning\n- Remember context from previous messages in this conversation\n\nResponse Format:\n- Use markdown formatting for better readability\n- Include bullet points for actionable items\n- Add relevant emojis to make responses more engaging\n- Structure longer responses with clear headings"

/-- The user-role payload of `CareerCoachAgent._handle_chat_interaction`: the
profile summary (formatted experience, joined skills, formatted education),
the target job, the conversation digest and the question. -/
def careerCoachUserPrompt (name about : PyVal)
    (experienceStr skillsStr educationStr : String)
    (job_description context user_question : String) : String :=
  "**User Profile Context:**\n- Name: " ++ pyStr name ++ "\n- About: "
    ++ pyStr about ++ "\n- Experience: " ++ experienceStr ++ "\n- Skills: "
    ++ skillsStr ++ "\n- Education: " ++ educationStr
    ++ "\n\n**Target Job:** " ++ job_description
    ++ "\n\n**Conversation History:** " ++ context
    ++ "\n\n**Current Question:** " ++ user_question
    ++ "\n\nPlease provide a helpful, detailed response that directly addresses their question while leveraging their profile data and career context. Be specific and actionable."

/-- The apology text of the career coach's failure path. -/
def careerCoachApology : String :=
  "I apologize, but I encountered a technical issue. Please try rephrasing your question or ask something else about your career development."

/-- `CareerCoachAgent._handle_chat_interaction`: build the prompt (bounding
experience to three entries and education to two formatted lines), call the
completion collaborator, and return the tagged success dictionary, or on a
raised exception the apology dictionary with the error in its own field.
`', '.join(skills)` assumes string skills, as `sanitize_profile` provides. -/
def handleChatInteraction (llm : List (String × String) → Except String String)
    (profile : List (String × PyVal)) (job_description user_question : String)
    (chat_history : List HistMsg) (session_id : PyVal) :
    List (String × PyVal) :=
  let about := pyGetD profile "about" (PyVal.str "Not provided")
  let experience := pyListGet profile "experience"
  let skills := pyListGet profile "skills"
  let education := pyListGet profile "education"
  let name := pyGetD profile "name" (PyVal.str "User")
  let context := buildConversationContext "Coach" chat_history
  let skillsStr :=
    if skills = [] then "Not specified"
    else String.intercalate ", " (skills.map pyStr)
  let user_prompt :=
    careerCoachUserPrompt name about (formatExperience experience) skillsStr
      (formatEducation education) job_description context user_question
  match llm [("system", careerCoachSystemPrompt), ("human", user_prompt)] with
  | Except.ok content =>
    [("message", PyVal.str (strStrip content)),
     ("answer", PyVal.str (strStrip content)),
     ("type", PyVal.str "chat_response"),
     ("session_id", session_id),
     ("user_question", PyVal.str user_question),
     ("success", PyVal.bool true)]
  | Except.error e =>
    [("message", PyVal.str careerCoachApology),
     ("answer", PyVal.str careerCoachApology),
     ("error", PyVal.str e),
     ("type", PyVal.str "error"),
     ("session_id", session_id),
     ("success", PyVal.bool false)]

/-- The system prompt of `ProfileAnalyzerAgent._handle_chat_analysis`. -/
def analyzerSystemPrompt : String :=
  "You are an expert LinkedIn profile analyst. When users ask about their profile, provide detailed, actionable insights in a conversational tone. Use markdown formatting and be specific about their profile data. Consider the conversation history when providing analysis."

/-- The user-role payload of `ProfileAnalyzerAgent._handle_chat_analysis`. -/
def analyzerUserPrompt (name about experience skills : PyVal)
    (context user_question : String) : String :=
  "**User Profile:**\n- Name: " ++ pyStr name ++ "\n- About: " ++ pyStr about
    ++ "\n- Experience: " ++ pyStr experience ++ "\n- Skills: " ++ pyStr skills
    ++ "\n\n**Conversation History:** " ++ context
    ++ "\n\n**User Question:** " ++ user_question
    ++ "\n\nPlease provide a detailed, helpful response that directly addresses their question about their profile. Be specific and actionable. Consider what was discussed previously in the conversation."

/-- `ProfileAnalyzerAgent._handle_chat_analysis`. -/
def handleChatAnalysis (llm : List (String × String) → Except String String)
    (profile : List (String × PyVal)) (user_question : String)
    (session_id : PyVal) (chat_history : List HistMsg) :
    List (String × PyVal) :=
  let about := pyGetD profile "about" (PyVal.str "")
  let experience := pyGetD profile "experience" (PyVal.list [])
  let skills := pyGetD profile "skills" (PyVal.list [])
  let name := pyGetD profile "name" (PyVal.str "User")
  let context := buildConversationContext "Assistant" chat_history
  let user_prompt :=
    analyzerUserPrompt name about experience skills context user_question
  match llm [("system", analyzerSystemPrompt), ("human", user_prompt)] with
  | Except.ok content =>
    [("message", PyVal.str (strStrip content)),
     ("type", PyVal.str "profile_analysis"),
     ("session_id", session_id),
     ("user_question", PyVal.str user_question),
     ("success", PyVal.bool true)]
  | Except.error e =>
    [("message", PyVal.str "I apologize, but I encountered an issue analyzing your profile. Please try rephrasing your question."),
     ("error", PyVal.str e),
     ("type", PyVal.str "error"),
     ("session_id", session_id),
     ("success", PyVal.bool false)]

/-- The system prompt of `ContentEnhancerAgent._handle_chat_enhancement`. -/
def enhancerSystemPrompt : String :=
  "You are an expert LinkedIn content enhancer specializing in profile optimization and ATS (Applicant Tracking System) compatibility.\n\nKey Requirements:\n- Provide specific, actionable content improvements\n- Include relevant keywords for the target role\n- Use clear markdown formatting with headers and bullet points\n- Explain why each change improves the content\n- Focus on ATS optimization and readability\n- Be specific about the requested content section\n\nResponse Format:\n1. **Current Content Analysis** - Brief assessment of existing content\n2. **Enhanced Version** - Improved content with keywords\n3. **Key Improvements** - Specific changes made and why\n4. **ATS Optimization Tips** - Additional suggestions for better visibility\n5. **Keywords Added** - List of relevant keywords incorporated\n\nWhen rewriting about sections, focus on:\n- Professional summary with key achievements\n- Relevant keywords for the target role\n- Clear value proposition\n- Call-to-action elements\n- Professional tone and readability"

/-- The user-role payload of `ContentEnhancerAgent._handle_chat_enhancement`. -/
def enhancerUserPrompt (name about experience skills : PyVal)
    (context user_question : String) : String :=
  "**User Profile:**\n- Name: " ++ pyStr name ++ "\n- About: " ++ pyStr about
    ++ "\n- Experience: " ++ pyStr experience ++ "\n- Skills: " ++ pyStr skills
    ++ "\n\n**Conversation History:** " ++ context
    ++ "\n\n**User Question:** " ++ user_question
    ++ "\n\nPlease provide specific content improvements that directly address their request. Focus on the about section rewrite with relevant keywords for their target role. Include enhanced versions and explain why the changes are better."

/-- `ContentEnhancerAgent._handle_chat_enhancement`. -/
def handleChatEnhancement (llm : List (String × String) → Except String String)
    (profile : List (String × PyVal)) (user_question : String)
    (session_id : PyVal) (chat_history : List HistMsg) :
    List (String × PyVal) :=
  let about := pyGetD profile "about" (PyVal.str "")
  let experience := pyGetD profile "experience" (PyVal.list [])
  let skills := pyGetD profile "skills" (PyVal.list [])
  let name := pyGetD profile "name" (PyVal.str "User")
  let context := buildConversationContext "Assistant" chat_history
  let user_prompt :=
    enhancerUserPrompt name about experience skills context user_question
  match llm [("system", enhancerSystemPrompt), ("human", user_prompt)] with
  | Except.ok content =>
    [("message", PyVal.str (strStrip content)),
     ("type", PyVal.str "content_enhancement"),
     ("session_id", session_id),
     ("user_question", PyVal.str user_question),
     ("success", PyVal.bool true)]
  | Except.error e =>
    [("message", PyVal.str "I apologize, but I encountered an issue enhancing your content. Please try rephrasing your question."),
     ("error", PyVal.str e),
     ("type", PyVal.str "error"),
     ("session_id", session_id),
     ("success", PyVal.bool false)]

/-! ## Profile sanitization (`src/scraper/linkedin_scraper.py`) -/

/-- The `field_mappings` table of `sanitize_profile`: each target key with its
ordered list of possible source keys. -/
def field_mappings : List (String × List String) :=
  [("name", ["fullName", "firstName", "lastName", "name"]),
   ("headline", ["headline", "title"]),
   ("about", ["about", "summary", "description"]),
   ("experience", ["experience", "positions", "workExperience"]),
   ("education", ["education", "schools"]),
   ("skills", ["skills", "skillsAndEndorsements"]),
   ("certifications", ["certifications", "certificates"]),
   ("languages", ["languages", "spokenLanguages"]),
   ("location", ["location", "locationName"]),
   ("profileUrl", ["profileUrl", "url", "linkedinUrl"])]

/-- The inner loop of `sanitize_profile`: the value of the first possible key
that is present in the profile and truthy. -/
def firstTruthy (profile : List (String × PyVal)) : List String → Option PyVal
  | [] => Option.none
  | k :: ks =>
    match dget profile k with
    | some v => if v.truthy then some v else firstTruthy profile ks
    | Option.none => firstTruthy profile ks

/-- The target keys that default to an empty list instead of an empty
string. -/
def listTargets : List String :=
  ["experience", "education", "skills", "certifications", "languages"]

/-- The default value `sanitize_profile` stores for an unmatched target
key. -/
def defaultFor (target : String) : PyVal :=
  if target ∈ listTargets then PyVal.list [] else PyVal.str ""

/-- One entry of the sanitized dictionary: the matched value or the target's
default. -/
def sanitizeEntry (profile : List (String × PyVal)) (m : String × List String) :
    String × PyVal :=
  match firstTruthy profile m.2 with
  | some v => (m.1, v)
  | Option.none => (m.1, defaultFor m.1)

/-- Dictionary assignment `d[k] = v` for a key already present: replace the
value in place, keeping insertion order. -/
def setKey (d : List (String × PyVal)) (k : String) (v : PyVal) :
    List (String × PyVal) :=
  d.map (fun p => if p.1 = k then (k, v) else p)

/-- `sanitize_profile`: build the ten-key dictionary in `field_mappings`
order, then, when the resulting `name` is falsy and the profile has a
`firstName` key, overwrite `name` with
`f"\x7bfirst_name\x7d \x7blast_name\x7d".strip()`. -/
def sanitize_profile (profile : List (String × PyVal)) :
    List (String × PyVal) :=
  let sanitized := field_mappings.map (sanitizeEntry profile)
  if ¬ (pyGet sanitized "name").truthy ∧ (dget profile "firstName").isSome then
    setKey sanitized "name"
      (PyVal.str (strStrip (pyStr (pyGetD profile "firstName" (PyVal.str ""))
        ++ " " ++ pyStr (pyGetD profile "lastName" (PyVal.str "")))))
  else sanitized

/-! ## The Turn Engine

Modelled from the spec: the loop that drives repeated (component → router)
steps is the graph runtime, not a file under `src/` — `src/graph_utils.py`
only declares the nodes and conditional edges.  Following §4.3 of the spec,
`run_turn` starts from the intent-classifier node and repeatedly invokes the
named component and then the router on the merged state, stopping at
TERMINATE; an iteration cap (the spec's small constant, 10) bounds the number
of component invocations, and exceeding it is a fatal error for the turn. -/

/-- Modelled from the spec: the iteration cap (§4.3: "a small constant,
e.g. 10"). -/
def ITERATION_CAP : Nat := 10

/-- Modelled from the spec: a turn either completes with a final state or
fails fatally because the iteration cap was exceeded. -/
inductive EngineResult where
  | done : TurnState → EngineResult
  | fatal : EngineResult

/-- Modelled from the spec: the engine loop.  Each unit of fuel pays for one
component invocation followed by one router call; exhausted fuel is the fatal
cap error. -/
def runTurnSteps (invoke : PyVal → TurnState → TurnState)
    (routerFn : TurnState → Route) : Nat → PyVal → TurnState → EngineResult
  | 0, _, _ => EngineResult.fatal
  | n + 1, nodeName, s =>
    let s' := invoke nodeName s
    match routerFn s' with
    | Route.END => EngineResult.done s'
    | Route.node next => runTurnSteps invoke routerFn n next s'

/-- Modelled from the spec: `run_turn` drives a turn from the
intent-classifier entry point under the iteration cap.  `invoke` abstracts
invoking a named component and merging its partial result into the state. -/
def run_turn (invoke : PyVal → TurnState → TurnState)
    (routerFn : TurnState → Route) (initial : TurnState) : EngineResult :=
  runTurnSteps invoke routerFn ITERATION_CAP
    (PyVal.str "intent_classifier_agent") initial

/-! ## Concrete fixtures used by witnesses and counterexamples -/

/-- A mid-turn chat state: the classifier has routed the question `"q1"` to
the job-fit agent and no handler has produced a result yet. -/
def fixtureChatState : TurnState :=
  { command := PyVal.str "chat"
    user_question := PyVal.str "q1"
    error := Option.none
    force_end := PyVal.none
    coaching := Option.none
    analysis := Option.none
    job_fit := Option.none
    enhanced_content := Option.none
    intent_classification := some [("intent", PyVal.str "job_fit_agent")] }

/-- A four-entry experience list whose fourth entry has a recognizable
title. -/
def fixtureExperienceList4 : List PyVal :=
  [PyVal.dict [("title", PyVal.str "Senior Engineer"), ("company", PyVal.str "Acme")],
   PyVal.dict [("title", PyVal.str "Engineer"), ("company", PyVal.str "Beta")],
   PyVal.dict [("title", PyVal.str "Junior Engineer"), ("company", PyVal.str "Gamma")],
   PyVal.dict [("title", PyVal.str "InternFourthEntry"), ("company", PyVal.str "Delta")]]

/-- The same four-entry experience list as a profile value. -/
def fixtureExperience4 : PyVal := PyVal.list fixtureExperienceList4

/-- A six-message chat history. -/
def fixtureHistory6 : List HistMsg :=
  [HistMsg.dict "user" "m5", HistMsg.dict "assistant" "m6",
   HistMsg.dict "user" "m7", HistMsg.dict "assistant" "m8",
   HistMsg.dict "user" "m9", HistMsg.dict "assistant" "m10"]

/-- Four earlier messages preceding `fixtureHistory6` in a ten-message
history. -/
def fixtureHistory4 : List HistMsg :=
  [HistMsg.dict "user" "m1", HistMsg.dict "assistant" "m2",
   HistMsg.dict "user" "m3", HistMsg.dict "assistant" "m4"]

/-- The statement-side truncation of one history message to 150 content
characters (the cap `_build_conversation_context` applies). -/
def truncateMsg150 : HistMsg → HistMsg
  | HistMsg.dict role content => HistMsg.dict role (strTake content 150)
  | HistMsg.raw s => HistMsg.raw (strTake s 150)

/-! ## Helper lemmas -/

theorem slotFresh_iff (slot : Option (List (String × PyVal))) (q : PyVal) :
    slotFresh slot q = true
      ↔ ∃ d, slot = some d ∧ d ≠ [] ∧ pyGet d "user_question" = q := by
  cases slot with
  | none => simp [slotFresh]
  | some d => simp [slotFresh]

theorem dget_cons (x : String × PyVal) (rest : List (String × PyVal))
    (k : String) : dget (x :: rest) k = if x.1 = k then some x.2 else dget rest k := rfl

theorem sanitizeEntry_fst (profile : List (String × PyVal))
    (m : String × List String) : (sanitizeEntry profile m).1 = m.1 := by
  unfold sanitizeEntry
  cases firstTruthy profile m.2 <;> rfl

theorem dget_setKey_ne (d : List (String × PyVal)) (k k' : String) (v : PyVal)
    (h : k' ≠ k) : dget (setKey d k v) k' = dget d k' := by
  unfold setKey
  induction d with
  | nil => rfl
  | cons x rest ih =>
    rw [List.map_cons, dget_cons, dget_cons]
    by_cases hx : x.1 = k
    · have hkk : ¬ (k = k') := fun hh => h hh.symm
      have hxk : ¬ (x.1 = k') := by rw [hx]; exact hkk
      simp [hx, hkk, hxk, ih]
    · by_cases hk : x.1 = k'
      · simp [hx, hk, h]
      · simp [hx, hk, ih]

theorem map_fst_setKey (d : List (String × PyVal)) (k : String) (v : PyVal) :
    (setKey d k v).map Prod.fst = d.map Prod.fst := by
  unfold setKey
  rw [List.map_map]
  apply List.map_congr_left
  intro p _
  by_cases h : p.1 = k
  · simp [h]
  · simp [h]

theorem map_fst_sanitize (profile : List (String × PyVal))
    (ms : List (String × List String)) :
    (ms.map (sanitizeEntry profile)).map Prod.fst = ms.map Prod.fst := by
  induction ms with
  | nil => rfl
  | cons m rest ih => simp [sanitizeEntry_fst, ih]

theorem dget_fallback_success (q : String) (sid : PyVal) :
    dget (fallbackClassification q sid) "success" = some (PyVal.bool true) := by
  unfold fallbackClassification
  dsimp only
  split
  · rfl
  · split
    · rfl
    · split <;> rfl

theorem dget_classifyFromParsed_success (result : List (String × PyVal))
    (sid : PyVal) :
    dget (classifyFromParsed result sid) "success" = some (PyVal.bool true) := by
  unfold classifyFromParsed
  split <;> rfl

theorem strTake_strTake (s : String) (n : Nat) :
    strTake (strTake s n) n = strTake s n := by
  unfold strTake
  simp [List.take_take]

theorem contextPart_truncateMsg150 (label : String) (m : HistMsg) :
    contextPart label (truncateMsg150 m) = contextPart label m := by
  cases m with
  | dict role content =>
    unfold truncateMsg150 contextPart
    by_cases h1 : role = "user"
    · simp [h1, strTake_strTake]
    · by_cases h2 : role = "assistant" <;> simp [h1, h2, strTake_strTake]
  | raw s =>
    unfold truncateMsg150 contextPart
    simp [strTake_strTake]

theorem lastN_append (xs h : List α) (hlen : h.length = 6) :
    lastN 6 (xs ++ h) = h := by
  unfold lastN
  rw [List.length_append, hlen, Nat.add_sub_cancel]
  exact List.drop_left xs h

theorem lastN_self (h : List α) (hlen : h.length = 6) : lastN 6 h = h := by
  unfold lastN
  rw [hlen, Nat.sub_self]
  rfl

theorem dget_map_sanitizeEntry (profile : List (String × PyVal))
    (ms : List (String × List String)) (k : String) :
    dget (ms.map (sanitizeEntry profile)) k
      = Option.map (fun m => (sanitizeEntry profile m).2)
          (ms.find? (fun m => m.1 == k)) := by
  induction ms with
  | nil => rfl
  | cons m rest ih =>
    rw [List.map_cons, dget_cons, sanitizeEntry_fst]
    by_cases hk : m.1 = k
    · rw [if_pos hk, List.find?_cons_of_pos _ (by simp [hk])]
      rfl
    · rw [if_neg hk, List.find?_cons_of_neg _ (by simp [hk])]
      exact ih

theorem dget_sanitized_default (profile : List (String × PyVal)) (k : String)
    (srcs : List String)
    (hfind : field_mappings.find? (fun m => m.1 == k) = some (k, srcs))
    (hnone : firstTruthy profile srcs = Option.none) :
    dget (field_mappings.map (sanitizeEntry profile)) k
      = some (defaultFor k) := by
  rw [dget_map_sanitizeEntry, hfind]
  show some ((sanitizeEntry profile (k, srcs)).2) = some (defaultFor k)
  unfold sanitizeEntry
  dsimp only
  rw [hnone]

theorem dget_setKey_name (profile : List (String × PyVal)) (v : PyVal) :
    dget (setKey (field_mappings.map (sanitizeEntry profile)) "name" v) "name"
      = some v := by
  simp only [field_mappings, List.map_cons, List.map_nil, setKey]
  simp [sanitizeEntry_fst, dget_cons]

theorem routerIntent_ne_END (o : Option (List (String × PyVal))) :
    routerIntent o ≠ Route.END := by
  unfold routerIntent
  cases o with
  | none => simp
  | some ic =>
    by_cases h1 : decide (¬ ic = []) = true
    · by_cases h2 : (pyGet ic "intent").truthy = true <;> simp [h1, h2]
    · simp [Bool.not_eq_true] at h1
      simp [h1]

theorem router_no_guard (s : TurnState) (he : s.error = Option.none)
    (hf : s.force_end.truthy = false) (hc : s.command = PyVal.str "chat") :
    router s =
      if (slotFresh s.coaching s.user_question
          || slotFresh s.analysis s.user_question
          || slotFresh s.job_fit s.user_question
          || slotFresh s.enhanced_content s.user_question) then Route.END
      else routerIntent s.intent_classification := by
  unfold router
  rw [he, hc]
  simp [hf]

theorem router_all_unfresh (s : TurnState) (he : s.error = Option.none)
    (hf : s.force_end.truthy = false) (hc : s.command = PyVal.str "chat")
    (ic : List (String × PyVal)) (hic : s.intent_classification = some ic)
    (hint : (pyGet ic "intent").truthy = true)
    (h1 : slotFresh s.coaching s.user_question = false)
    (h2 : slotFresh s.analysis s.user_question = false)
    (h3 : slotFresh s.job_fit s.user_question = false)
    (h4 : slotFresh s.enhanced_content s.user_question = false) :
    router s = Route.node (pyGet ic "intent") := by
  have hicne : decide (¬ ic = []) = true := by
    apply decide_eq_true
    intro hnil
    rw [hnil] at hint
    simp [pyGet, pyGetD, dget, PyVal.truthy] at hint
  rw [router_no_guard s he hf hc, h1, h2, h3, h4]
  simp only [Bool.or_self]
  rw [if_neg (by simp), hic]
  simp only [routerIntent]
  rw [if_pos hicne, if_pos hint]

/-! ## Claims -/

/-- C1: for every `TurnState` with `command == "chat"` in which neither
`error` nor `force_end` is set, the router returns TERMINATE if and only if
at least one of the four HandlerResult slots (`coaching`, `analysis`,
`job_fit`, `enhanced_content`) holds a non-empty result whose `user_question`
equals the state's `user_question`; in particular, when no slot matches
(e.g. only a stale result with a different `user_question` is present) and an
IntentClassification with a truthy intent is present, the router does not
terminate and returns that classification's intent. -/
theorem router_chat_terminates_iff_fresh_result (s : TurnState)
    (hc : s.command = PyVal.str "chat") (he : s.error = Option.none)
    (hf : s.force_end.truthy = false) :
    (router s = Route.END ↔
      ∃ d, (s.coaching = some d ∨ s.analysis = some d ∨ s.job_fit = some d
          ∨ s.enhanced_content = some d)
        ∧ d ≠ [] ∧ pyGet d "user_question" = s.user_question)
    ∧ (∀ ic, s.intent_classification = some ic →
        (pyGet ic "intent").truthy = true → router s ≠ Route.END →
        router s = Route.node (pyGet ic "intent")) := by
  have hr := router_no_guard s he hf hc
  have hiff : (slotFresh s.coaching s.user_question
      || slotFresh s.analysis s.user_question
      || slotFresh s.job_fit s.user_question
      || slotFresh s.enhanced_content s.user_question) = true
      ↔ ∃ d, (s.coaching = some d ∨ s.analysis = some d ∨ s.job_fit = some d
          ∨ s.enhanced_content = some d)
        ∧ d ≠ [] ∧ pyGet d "user_question" = s.user_question := by
    simp only [Bool.or_eq_true, slotFresh_iff]
    constructor
    · rintro (((⟨d, hd, hne, hq⟩ | ⟨d, hd, hne, hq⟩) | ⟨d, hd, hne, hq⟩)
        | ⟨d, hd, hne, hq⟩)
      · exact ⟨d, Or.inl hd, hne, hq⟩
      · exact ⟨d, Or.inr (Or.inl hd), hne, hq⟩
      · exact ⟨d, Or.inr (Or.inr (Or.inl hd)), hne, hq⟩
      · exact ⟨d, Or.inr (Or.inr (Or.inr hd)), hne, hq⟩
    · rintro ⟨d, (hd | hd | hd | hd), hne, hq⟩
      · exact Or.inl (Or.inl (Or.inl ⟨d, hd, hne, hq⟩))
      · exact Or.inl (Or.inl (Or.inr ⟨d, hd, hne, hq⟩))
      · exact Or.inl (Or.inr ⟨d, hd, hne, hq⟩)
      · exact Or.inr ⟨d, hd, hne, hq⟩
  constructor
  · rw [hr]
    by_cases hfresh : (slotFresh s.coaching s.user_question
        || slotFresh s.analysis s.user_question
        || slotFresh s.job_fit s.user_question
        || slotFresh s.enhanced_content s.user_question) = true
    · rw [if_pos hfresh]
      exact ⟨fun _ => hiff.mp hfresh, fun _ => rfl⟩
    · rw [if_neg hfresh]
      constructor
      · intro hEnd
        exact absurd hEnd (routerIntent_ne_END _)
      · intro hex
        exact absurd (hiff.mpr hex) hfresh
  · intro ic hic htr hne
    rw [hr] at hne ⊢
    by_cases hfresh : (slotFresh s.coaching s.user_question
        || slotFresh s.analysis s.user_question
        || slotFresh s.job_fit s.user_question
        || slotFresh s.enhanced_content s.user_question) = true
    · rw [if_pos hfresh] at hne
      exact absurd rfl hne
    · have hicne : decide (¬ ic = []) = true := by
        apply decide_eq_true
        intro hnil
        rw [hnil] at htr
        simp [pyGet, pyGetD, dget, PyVal.truthy] at htr
      rw [if_neg hfresh, hic]
      simp only [routerIntent]
      rw [if_pos hicne, if_pos htr]

/-- Witness for C1: with a fresh `coaching` result matching the current
question `"q1"`, the router terminates; with only a job-fit-bound
classification and no matching result, it routes to `job_fit_agent`. -/
theorem router_chat_terminates_iff_fresh_result_witness :
    router { fixtureChatState with
        coaching := some [("user_question", PyVal.str "q1")] } = Route.END
    ∧ router fixtureChatState = Route.node (PyVal.str "job_fit_agent") := by
  constructor
  · exact ((router_chat_terminates_iff_fresh_result
      { fixtureChatState with
        coaching := some [("user_question", PyVal.str "q1")] } rfl rfl rfl).1).mpr
      ⟨[("user_question", PyVal.str "q1")], Or.inl rfl, by decide, by decide⟩
  · have h := (router_chat_terminates_iff_fresh_result fixtureChatState
      rfl rfl rfl).2 [("intent", PyVal.str "job_fit_agent")] rfl (by decide)
      (by decide)
    exact h.trans (by decide)

/-- C4: for every `TurnState` in which the `error` field is present or
`force_end` is truthy, the router returns TERMINATE regardless of every other
field. -/
theorem router_error_or_force_end_terminates (s : TurnState)
    (h : s.error ≠ Option.none ∨ s.force_end.truthy = true) :
    router s = Route.END := by
  unfold router
  rcases h with h | h
  · cases he : s.error with
    | none => exact absurd he h
    | some v => simp [he]
  · simp [h]

/-- Witness for C4: a state with an `error` set terminates even though a
matching fresh result and a classification are also present. -/
theorem router_error_or_force_end_terminates_witness :
    router { fixtureChatState with
        error := some (PyVal.str "boom"),
        coaching := some [("user_question", PyVal.str "q1")] } = Route.END :=
  router_error_or_force_end_terminates _ (Or.inl (by decide))

/-- Counterexample for C2: in a chat turn for question `"q1"` already
classified to the job-fit agent, the completion call raises, the handler
returns its `success=false` apology result, and the router applied to the
merged state does **not** return TERMINATE — it re-routes to `job_fit_agent`
(the error result carries no `user_question` and the node does not set a
top-level `error`). -/
theorem jobFit_error_result_not_terminating_cex :
    dget (handleChatJobFit (fun _ => Except.error "boom") [] "jd" "q1"
        (PyVal.str "s") []) "success" = some (PyVal.bool false)
    ∧ router (mergeJobFit fixtureChatState
        (handleChatJobFit (fun _ => Except.error "boom") [] "jd" "q1"
          (PyVal.str "s") []))
      = Route.node (PyVal.str "job_fit_agent")
    ∧ router (mergeJobFit fixtureChatState
        (handleChatJobFit (fun _ => Except.error "boom") [] "jd" "q1"
          (PyVal.str "s") []))
      ≠ Route.END :=
  ⟨rfl, by decide, by decide⟩

/-- C2 as amended: for every chat-mode handler invocation — any of the four
handlers — in which the completion collaborator raises, the handler catches
the exception and returns a HandlerResult with `success == false`, its
user-safe apology message and the error detail in a separate field (the raw
exception never propagates — the embedded handlers are total functions into
result dictionaries); but the router applied to the turn state after that
result is merged into the handler's slot does not terminate: because every
error result carries no `user_question` and every node writes only its own
slot (no top-level `error`), the router re-routes to the classification's
intent. -/
theorem handler_failure_caught_then_rerouted
    (e : String) (profile : List (String × PyVal)) (jd q : String)
    (sid : PyVal) (hist : List HistMsg) (s : TurnState)
    (ic : List (String × PyVal))
    (hc : s.command = PyVal.str "chat") (he : s.error = Option.none)
    (hf : s.force_end.truthy = false) (hq : s.user_question = PyVal.str q)
    (hcoach : slotFresh s.coaching (PyVal.str q) = false)
    (hana : slotFresh s.analysis (PyVal.str q) = false)
    (hjf : slotFresh s.job_fit (PyVal.str q) = false)
    (henh : slotFresh s.enhanced_content (PyVal.str q) = false)
    (hic : s.intent_classification = some ic)
    (hint : (pyGet ic "intent").truthy = true) :
    (dget (handleChatJobFit (fun _ => Except.error e) profile jd q sid hist)
        "success" = some (PyVal.bool false)
      ∧ dget (handleChatJobFit (fun _ => Except.error e) profile jd q sid hist)
        "message" = some (PyVal.str "I apologize, but I encountered an issue analyzing your job fit. Please try rephrasing your question.")
      ∧ dget (handleChatJobFit (fun _ => Except.error e) profile jd q sid hist)
        "error" = some (PyVal.str e)
      ∧ router (mergeJobFit s
          (handleChatJobFit (fun _ => Except.error e) profile jd q sid hist))
        = Route.node (pyGet ic "intent"))
    ∧ (dget (handleChatInteraction (fun _ => Except.error e) profile jd q hist sid)
        "success" = some (PyVal.bool false)
      ∧ dget (handleChatInteraction (fun _ => Except.error e) profile jd q hist sid)
        "message" = some (PyVal.str careerCoachApology)
      ∧ dget (handleChatInteraction (fun _ => Except.error e) profile jd q hist sid)
        "error" = some (PyVal.str e)
      ∧ router (mergeCoaching s
          (handleChatInteraction (fun _ => Except.error e) profile jd q hist sid))
        = Route.node (pyGet ic "intent"))
    ∧ (dget (handleChatAnalysis (fun _ => Except.error e) profile q sid hist)
        "success" = some (PyVal.bool false)
      ∧ dget (handleChatAnalysis (fun _ => Except.error e) profile q sid hist)
        "message" = some (PyVal.str "I apologize, but I encountered an issue analyzing your profile. Please try rephrasing your question.")
      ∧ dget (handleChatAnalysis (fun _ => Except.error e) profile q sid hist)
        "error" = some (PyVal.str e)
      ∧ router (mergeAnalysis s
          (handleChatAnalysis (fun _ => Except.error e) profile q sid hist))
        = Route.node (pyGet ic "intent"))
    ∧ (dget (handleChatEnhancement (fun _ => Except.error e) profile q sid hist)
        "success" = some (PyVal.bool false)
      ∧ dget (handleChatEnhancement (fun _ => Except.error e) profile q sid hist)
        "message" = some (PyVal.str "I apologize, but I encountered an issue enhancing your content. Please try rephrasing your question.")
      ∧ dget (handleChatEnhancement (fun _ => Except.error e) profile q sid hist)
        "error" = some (PyVal.str e)
      ∧ router (mergeEnhancedContent s
          (handleChatEnhancement (fun _ => Except.error e) profile q sid hist))
        = Route.node (pyGet ic "intent")) := by
  refine ⟨⟨rfl, rfl, rfl, ?_⟩, ⟨rfl, rfl, rfl, ?_⟩, ⟨rfl, rfl, rfl, ?_⟩,
    ⟨rfl, rfl, rfl, ?_⟩⟩
  · exact router_all_unfresh (mergeJobFit s
        (handleChatJobFit (fun _ => Except.error e) profile jd q sid hist))
        he hf hc ic hic hint
      (by show slotFresh s.coaching s.user_question = false
          rw [hq]; exact hcoach)
      (by show slotFresh s.analysis s.user_question = false
          rw [hq]; exact hana)
      (by show slotFresh (some (handleChatJobFit (fun _ => Except.error e)
            profile jd q sid hist)) s.user_question = false
          rw [hq]; exact rfl)
      (by show slotFresh s.enhanced_content s.user_question = false
          rw [hq]; exact henh)
  · exact router_all_unfresh (mergeCoaching s
        (handleChatInteraction (fun _ => Except.error e) profile jd q hist sid))
        he hf hc ic hic hint
      (by show slotFresh (some (handleChatInteraction (fun _ => Except.error e)
            profile jd q hist sid)) s.user_question = false
          rw [hq]; exact rfl)
      (by show slotFresh s.analysis s.user_question = false
          rw [hq]; exact hana)
      (by show slotFresh s.job_fit s.user_question = false
          rw [hq]; exact hjf)
      (by show slotFresh s.enhanced_content s.user_question = false
          rw [hq]; exact henh)
  · exact router_all_unfresh (mergeAnalysis s
        (handleChatAnalysis (fun _ => Except.error e) profile q sid hist))
        he hf hc ic hic hint
      (by show slotFresh s.coaching s.user_question = false
          rw [hq]; exact hcoach)
      (by show slotFresh (some (handleChatAnalysis (fun _ => Except.error e)
            profile q sid hist)) s.user_question = false
          rw [hq]; exact rfl)
      (by show slotFresh s.job_fit s.user_question = false
          rw [hq]; exact hjf)
      (by show slotFresh s.enhanced_content s.user_question = false
          rw [hq]; exact henh)
  · exact router_all_unfresh (mergeEnhancedContent s
        (handleChatEnhancement (fun _ => Except.error e) profile q sid hist))
        he hf hc ic hic hint
      (by show slotFresh s.coaching s.user_question = false
          rw [hq]; exact hcoach)
      (by show slotFresh s.analysis s.user_question = false
          rw [hq]; exact hana)
      (by show slotFresh s.job_fit s.user_question = false
          rw [hq]; exact hjf)
      (by show slotFresh (some (handleChatEnhancement (fun _ => Except.error e)
            profile q sid hist)) s.user_question = false
          rw [hq]; exact rfl)

/-- Witness for C2 as amended: a concrete failing turn in `fixtureChatState`
for each of the four handlers — every merged error result re-routes to the
classified intent instead of terminating. -/
theorem handler_failure_caught_then_rerouted_witness :
    router (mergeJobFit fixtureChatState
        (handleChatJobFit (fun _ => Except.error "boom") [] "jd" "q1"
          (PyVal.str "s") []))
      = Route.node (pyGet [("intent", PyVal.str "job_fit_agent")] "intent")
    ∧ router (mergeCoaching fixtureChatState
        (handleChatInteraction (fun _ => Except.error "boom") [] "jd" "q1" []
          (PyVal.str "s")))
      = Route.node (pyGet [("intent", PyVal.str "job_fit_agent")] "intent")
    ∧ router (mergeAnalysis fixtureChatState
        (handleChatAnalysis (fun _ => Except.error "boom") [] "q1"
          (PyVal.str "s") []))
      = Route.node (pyGet [("intent", PyVal.str "job_fit_agent")] "intent")
    ∧ router (mergeEnhancedContent fixtureChatState
        (handleChatEnhancement (fun _ => Except.error "boom") [] "q1"
          (PyVal.str "s") []))
      = Route.node (pyGet [("intent", PyVal.str "job_fit_agent")] "intent")
    ∧ dget (handleChatInteraction (fun _ => Except.error "boom") [] "jd" "q1"
        [] (PyVal.str "s")) "success" = some (PyVal.bool false)
    ∧ dget (handleChatAnalysis (fun _ => Except.error "boom") [] "q1"
        (PyVal.str "s") []) "error" = some (PyVal.str "boom") := by
  have A := handler_failure_caught_then_rerouted "boom" [] "jd" "q1"
    (PyVal.str "s") [] fixtureChatState [("intent", PyVal.str "job_fit_agent")]
    rfl rfl rfl rfl rfl rfl rfl rfl rfl (by decide)
  exact ⟨A.1.2.2.2, A.2.1.2.2.2, A.2.2.1.2.2.2, A.2.2.2.2.2.2, A.2.1.1,
    A.2.2.1.2.2.1⟩

/-- C3: the keyword fallback lower-cases the question and tests the ordered
keyword groups — profile-analysis first, then job-fit, then
content-enhancement — returning the first matched group's intent at fixed
confidence 0.7 (so a profile-analysis keyword wins even when later groups
also match); when no group matches it returns `career_coach_agent` at
confidence 0.5. -/
theorem fallback_classification_ordered_groups (q : String) (sid : PyVal) :
    (anyKeyword profileKeywords (strLower q) = true →
      dget (fallbackClassification q sid) "intent"
          = some (PyVal.str "profile_analyzer_agent")
      ∧ dget (fallbackClassification q sid) "confidence"
          = some (PyVal.num (mkRat 7 10)))
    ∧ (anyKeyword profileKeywords (strLower q) = false →
      anyKeyword jobFitKeywords (strLower q) = true →
      dget (fallbackClassification q sid) "intent"
          = some (PyVal.str "job_fit_agent")
      ∧ dget (fallbackClassification q sid) "confidence"
          = some (PyVal.num (mkRat 7 10)))
    ∧ (anyKeyword profileKeywords (strLower q) = false →
      anyKeyword jobFitKeywords (strLower q) = false →
      anyKeyword contentKeywords (strLower q) = true →
      dget (fallbackClassification q sid) "intent"
          = some (PyVal.str "content_enhancer_agent")
      ∧ dget (fallbackClassification q sid) "confidence"
          = some (PyVal.num (mkRat 7 10)))
    ∧ (anyKeyword profileKeywords (strLower q) = false →
      anyKeyword jobFitKeywords (strLower q) = false →
      anyKeyword contentKeywords (strLower q) = false →
      dget (fallbackClassification q sid) "intent"
          = some (PyVal.str "career_coach_agent")
      ∧ dget (fallbackClassification q sid) "confidence"
          = some (PyVal.num (mkRat 1 2))) := by
  unfold fallbackClassification
  dsimp only
  refine ⟨?_, ?_, ?_, ?_⟩
  · intro h1
    rw [if_pos h1]
    exact ⟨rfl, rfl⟩
  · intro h1 h2
    rw [if_neg (by simp [h1]), if_pos h2]
    exact ⟨rfl, rfl⟩
  · intro h1 h2 h3
    rw [if_neg (by simp [h1]), if_neg (by simp [h2]), if_pos h3]
    exact ⟨rfl, rfl⟩
  · intro h1 h2 h3
    rw [if_neg (by simp [h1]), if_neg (by simp [h2]), if_neg (by simp [h3])]
    exact ⟨rfl, rfl⟩

/-- Witness for C3: `"analyze how to improve"` contains a profile-analysis
keyword and a later-group (content-enhancement) keyword, and the fallback
still classifies it as `profile_analyzer_agent` at confidence 0.7. -/
theorem fallback_classification_ordered_groups_witness :
    anyKeyword profileKeywords (strLower "analyze how to improve") = true
    ∧ anyKeyword contentKeywords (strLower "analyze how to improve") = true
    ∧ dget (fallbackClassification "analyze how to improve" (PyVal.str "s"))
        "intent" = some (PyVal.str "profile_analyzer_agent")
    ∧ dget (fallbackClassification "analyze how to improve" (PyVal.str "s"))
        "confidence" = some (PyVal.num (mkRat 7 10)) :=
  ⟨by decide, by decide,
   ((fallback_classification_ordered_groups "analyze how to improve"
      (PyVal.str "s")).1 (by decide)).1,
   ((fallback_classification_ordered_groups "analyze how to improve"
      (PyVal.str "s")).1 (by decide)).2⟩

/-- C5: every successful chat-mode handler invocation returns a result with
`success == true`, `type` equal to the handler's fixed category tag, and
`user_question` equal, character for character, to the question the handler
was invoked with — for all four handlers. -/
theorem chat_handlers_success_tag_and_question (content : String)
    (profile : List (String × PyVal)) (jd q : String) (sid : PyVal)
    (hist : List HistMsg) :
    (dget (handleChatJobFit (fun _ => Except.ok content) profile jd q sid hist)
        "type" = some (PyVal.str "job_fit_analysis")
      ∧ dget (handleChatJobFit (fun _ => Except.ok content) profile jd q sid hist)
        "success" = some (PyVal.bool true)
      ∧ dget (handleChatJobFit (fun _ => Except.ok content) profile jd q sid hist)
        "user_question" = some (PyVal.str q))
    ∧ (dget (handleChatInteraction (fun _ => Except.ok content) profile jd q hist sid)
        "type" = some (PyVal.str "chat_response")
      ∧ dget (handleChatInteraction (fun _ => Except.ok content) profile jd q hist sid)
        "success" = some (PyVal.bool true)
      ∧ dget (handleChatInteraction (fun _ => Except.ok content) profile jd q hist sid)
        "user_question" = some (PyVal.str q))
    ∧ (dget (handleChatAnalysis (fun _ => Except.ok content) profile q sid hist)
        "type" = some (PyVal.str "profile_analysis")
      ∧ dget (handleChatAnalysis (fun _ => Except.ok content) profile q sid hist)
        "success" = some (PyVal.bool true)
      ∧ dget (handleChatAnalysis (fun _ => Except.ok content) profile q sid hist)
        "user_question" = some (PyVal.str q))
    ∧ (dget (handleChatEnhancement (fun _ => Except.ok content) profile q sid hist)
        "type" = some (PyVal.str "content_enhancement")
      ∧ dget (handleChatEnhancement (fun _ => Except.ok content) profile q sid hist)
        "success" = some (PyVal.bool true)
      ∧ dget (handleChatEnhancement (fun _ => Except.ok content) profile q sid hist)
        "user_question" = some (PyVal.str q)) :=
  ⟨⟨rfl, rfl, rfl⟩, ⟨rfl, rfl, rfl⟩, ⟨rfl, rfl, rfl⟩, ⟨rfl, rfl, rfl⟩⟩

/-- Counterexample for C6: for the question `"analyze my strengths"` and a
parsed response declaring the invalid intent `"bogus_agent"`,
`classify_intent` does **not** return the keyword-fallback classification
(which would be `profile_analyzer_agent` at 0.7): it returns
`career_coach_agent` at 0.5. -/
theorem invalid_intent_not_keyword_fallback_cex :
    classify_intent (Except.ok "resp")
        (fun _ => some (PyVal.dict [("intent", PyVal.str "bogus_agent")]))
        "analyze my strengths" (PyVal.str "s1")
      ≠ fallbackClassification "analyze my strengths" (PyVal.str "s1")
    ∧ dget (classify_intent (Except.ok "resp")
        (fun _ => some (PyVal.dict [("intent", PyVal.str "bogus_agent")]))
        "analyze my strengths" (PyVal.str "s1")) "intent"
      = some (PyVal.str "career_coach_agent")
    ∧ dget (fallbackClassification "analyze my strengths" (PyVal.str "s1"))
        "intent" = some (PyVal.str "profile_analyzer_agent") :=
  ⟨by decide, by decide, by decide⟩

/-- C6 as amended: for every completion response that parses to a structured
object whose declared intent is not one of the four valid handler names,
`classify_intent` does not use the keyword fallback; it overwrites the intent
in place and returns `career_coach_agent` with confidence 0.5, the fixed
reasoning string, and `success == true`, regardless of the question. -/
theorem invalid_intent_defaults_to_career_coach
    (parse : String → Option PyVal) (content : String)
    (result : List (String × PyVal)) (q : String) (sid : PyVal)
    (hp : parse content = some (PyVal.dict result))
    (hv : isValidIntent (pyGet result "intent") = false) :
    classify_intent (Except.ok content) parse q sid
      = [("intent", PyVal.str "career_coach_agent"),
         ("confidence", PyVal.num (mkRat 1 2)),
         ("reasoning", PyVal.str "Defaulted to career coach due to unclear intent"),
         ("session_id", sid),
         ("success", PyVal.bool true)] := by
  simp only [classify_intent, hp]
  unfold classifyFromParsed
  rw [if_pos (by simp [hv])]

/-- Witness for C6 as amended: the concrete invalid-intent response. -/
theorem invalid_intent_defaults_to_career_coach_witness :
    classify_intent (Except.ok "resp")
        (fun _ => some (PyVal.dict [("intent", PyVal.str "not_an_agent")]))
        "rewrite my about section" (PyVal.str "s3")
      = [("intent", PyVal.str "career_coach_agent"),
         ("confidence", PyVal.num (mkRat 1 2)),
         ("reasoning", PyVal.str "Defaulted to career coach due to unclear intent"),
         ("session_id", PyVal.str "s3"),
         ("success", PyVal.bool true)] :=
  invalid_intent_defaults_to_career_coach
    (fun _ => some (PyVal.dict [("intent", PyVal.str "not_an_agent")])) "resp"
    [("intent", PyVal.str "not_an_agent")] "rewrite my about section"
    (PyVal.str "s3") rfl (by decide)

/-- C7 (spec-modelled): the Turn Engine enforces the iteration cap — with a
router stub that never returns TERMINATE, a turn run reaches the fatal engine
error instead of looping, after `ITERATION_CAP` component invocations (each
recursion step of `runTurnSteps` spends one unit of the cap on one component
invocation). -/
theorem turn_engine_iteration_cap_fatal
    (invoke : PyVal → TurnState → TurnState) (routerStub : TurnState → Route)
    (initial : TurnState) (h : ∀ s, routerStub s ≠ Route.END) :
    run_turn invoke routerStub initial = EngineResult.fatal := by
  have aux : ∀ (n : Nat) (nodeName : PyVal) (s : TurnState),
      runTurnSteps invoke routerStub n nodeName s = EngineResult.fatal := by
    intro n
    induction n with
    | zero => intro nodeName s; rfl
    | succ m ih =>
      intro nodeName s
      simp only [runTurnSteps]
      cases hr : routerStub (invoke nodeName s) with
      | END => exact absurd hr (h _)
      | node next =>
        simp only [hr]
        exact ih next (invoke nodeName s)
  exact aux ITERATION_CAP _ _

/-- Witness for C7: a stub router that always routes to the career coach
drives a concrete turn into the fatal cap error. -/
theorem turn_engine_iteration_cap_fatal_witness :
    run_turn (fun _ s => s)
      (fun _ => Route.node (PyVal.str "career_coach_agent")) fixtureChatState
      = EngineResult.fatal :=
  turn_engine_iteration_cap_fatal (fun _ s => s)
    (fun _ => Route.node (PyVal.str "career_coach_agent")) fixtureChatState
    (fun _ h => Route.noConfusion h)

/-- Counterexample for C8: the chat-mode job-fit handler's user-role payload
interpolates the raw experience list, so with a four-entry experience list the
payload contains the fourth entry's title — more than the 3 most recent
entries the claim allows for every handler.  (The career coach's bounded
formatter, by contrast, drops that fourth entry.) -/
theorem jobFit_prompt_contains_fourth_experience_cex :
    strContains
      (jobFitUserPrompt (PyVal.str "Ada") (PyVal.str "About text")
        fixtureExperience4 (PyVal.list [PyVal.str "Python"]) "Target job" "q"
        (buildConversationContext "Assistant" []))
      "InternFourthEntry" = true
    ∧ strContains (formatExperience fixtureExperienceList4)
      "InternFourthEntry" = false :=
  ⟨by decide, by decide⟩

/-- C8 as amended: the history digest of every handler is built from at most
the last 6 chat-history messages with each message's content truncated to 150
characters; the bounds of at most 3 experience entries formatted as
`"title at company"` and at most 2 education entries hold for the career-coach
handler's formatters (`_format_experience`, `_format_education`), while the
other handlers interpolate the full raw experience value into their payloads
(see the counterexample). -/
theorem prompt_context_bounds :
    (∀ experience : List PyVal,
      formatExperience experience = formatExperience (experience.take 3))
    ∧ (∀ education : List PyVal, education ≠ [] →
      ∃ l : List String, l.length ≤ 2
        ∧ formatEducation education = String.intercalate "; " l)
    ∧ (∀ (label : String) (xs h : List HistMsg), h.length = 6 →
      buildConversationContext label (xs ++ h)
        = buildConversationContext label h)
    ∧ (∀ (label : String) (h : List HistMsg),
      buildConversationContext label h
        = buildConversationContext label (h.map truncateMsg150)) := by
  refine ⟨?_, ?_, ?_, ?_⟩
  · intro e
    cases e with
    | nil => rfl
    | cons a as =>
      unfold formatExperience
      have h1 : (a :: as) ≠ [] := by simp
      have h2 : ((a :: as).take 3) ≠ [] := by simp [List.take_succ_cons]
      rw [if_neg h1, if_neg h2, List.take_take, Nat.min_self]
  · intro e he
    refine ⟨(e.filterMap eduEntry).take 2, ?_, ?_⟩
    · rw [List.length_take]
      exact Nat.min_le_left _ _
    · unfold formatEducation
      rw [if_neg he]
  · intro label xs h hlen
    have hne1 : xs ++ h ≠ [] := by
      intro hh
      have := congrArg List.length hh
      simp [hlen] at this
    have hne2 : h ≠ [] := by
      intro hh
      rw [hh] at hlen
      simp at hlen
    unfold buildConversationContext
    dsimp only
    rw [if_neg hne1, if_neg hne2, lastN_append xs h hlen, lastN_self h hlen]
  · intro label h
    by_cases hh : h = []
    · rw [hh]
      rfl
    · have hh2 : ¬ (h.map truncateMsg150 = []) := by simp [hh]
      unfold buildConversationContext
      dsimp only
      rw [if_neg hh, if_neg hh2]
      have hlast : lastN 6 (h.map truncateMsg150)
          = (lastN 6 h).map truncateMsg150 := by
        unfold lastN
        rw [List.length_map]
        exact (List.map_drop _ _ _).symm
      rw [hlast, List.filterMap_map]
      have hfun : contextPart label ∘ truncateMsg150 = contextPart label :=
        funext (contextPart_truncateMsg150 label)
      rw [hfun]

/-- Witness for C8 as amended: a ten-message history collapses to its last
six, and a three-entry education list formats to at most two lines. -/
theorem prompt_context_bounds_witness :
    buildConversationContext "Assistant" (fixtureHistory4 ++ fixtureHistory6)
      = buildConversationContext "Assistant" fixtureHistory6
    ∧ ∃ l : List String, l.length ≤ 2
      ∧ formatEducation
          [PyVal.dict [("degree", PyVal.str "BSc"), ("school", PyVal.str "MIT")],
           PyVal.dict [("degree", PyVal.str "MSc"), ("school", PyVal.str "CMU")],
           PyVal.dict [("degree", PyVal.str "PhD"), ("school", PyVal.str "ETH")]]
        = String.intercalate "; " l :=
  ⟨prompt_context_bounds.2.2.1 "Assistant" fixtureHistory4 fixtureHistory6
      (by decide),
   prompt_context_bounds.2.1 _ (by decide)⟩

/-- C9: `classify_intent` never raises outward — it is a total function into
classification dictionaries — and every failure (a completion-call exception,
an unparsable response, or a parsed non-dictionary object) degrades to the
keyword fallback classification; the returned classification always carries
`success == true`. -/
theorem classify_intent_total_with_fallback (llmOutcome : Except String String)
    (parse : String → Option PyVal) (q : String) (sid : PyVal) :
    (∀ e, llmOutcome = Except.error e →
      classify_intent llmOutcome parse q sid = fallbackClassification q sid)
    ∧ (∀ c, llmOutcome = Except.ok c → parse c = Option.none →
      classify_intent llmOutcome parse q sid = fallbackClassification q sid)
    ∧ (∀ c v, llmOutcome = Except.ok c → parse c = some v →
      (∀ d, v ≠ PyVal.dict d) →
      classify_intent llmOutcome parse q sid = fallbackClassification q sid)
    ∧ dget (classify_intent llmOutcome parse q sid) "success"
        = some (PyVal.bool true) := by
  refine ⟨?_, ?_, ?_, ?_⟩
  · rintro e rfl
    rfl
  · rintro c rfl hp
    simp [classify_intent, hp]
  · rintro c v rfl hp hnd
    cases v with
    | dict d => exact absurd rfl (hnd d)
    | str s => simp [classify_intent, hp]
    | num r => simp [classify_intent, hp]
    | bool b => simp [classify_intent, hp]
    | list l => simp [classify_intent, hp]
    | none => simp [classify_intent, hp]
  · cases llmOutcome with
    | error e => exact dget_fallback_success q sid
    | ok c =>
      cases hp : parse c with
      | none => simp [classify_intent, hp, dget_fallback_success]
      | some v =>
        cases v <;>
          simp [classify_intent, hp, dget_fallback_success,
            dget_classifyFromParsed_success]

/-- Witness for C9: a completion failure on `"improve my headline"` degrades
to the keyword fallback (content-enhancement) and still reports success. -/
theorem classify_intent_total_with_fallback_witness :
    classify_intent (Except.error "quota") (fun _ => Option.none)
        "improve my headline" (PyVal.str "s2")
      = fallbackClassification "improve my headline" (PyVal.str "s2")
    ∧ dget (classify_intent (Except.error "quota") (fun _ => Option.none)
        "improve my headline" (PyVal.str "s2")) "success"
      = some (PyVal.bool true) :=
  ⟨(classify_intent_total_with_fallback (Except.error "quota")
      (fun _ => Option.none) "improve my headline" (PyVal.str "s2")).1
      "quota" rfl,
   (classify_intent_total_with_fallback (Except.error "quota")
      (fun _ => Option.none) "improve my headline" (PyVal.str "s2")).2.2.2⟩

/-- C10 (implicit): for every input dictionary, `sanitize_profile` returns a
dictionary with exactly the ten keys `name`, `headline`, `about`,
`experience`, `education`, `skills`, `certifications`, `languages`,
`location`, `profileUrl` in that order; whenever no source key for
`experience`, `education`, `skills`, `certifications` or `languages` holds a
truthy value that key maps to the empty list; every other unmatched key maps
to the empty string; and `name` is additionally recombined from `firstName`
and `lastName` (stripped) when the sanitized `name` is falsy and the profile
has a `firstName` key. -/
theorem sanitize_profile_keys_and_defaults (profile : List (String × PyVal)) :
    ((sanitize_profile profile).map Prod.fst
      = ["name", "headline", "about", "experience", "education", "skills",
         "certifications", "languages", "location", "profileUrl"])
    ∧ (firstTruthy profile ["experience", "positions", "workExperience"]
        = Option.none →
      dget (sanitize_profile profile) "experience" = some (PyVal.list []))
    ∧ (firstTruthy profile ["education", "schools"] = Option.none →
      dget (sanitize_profile profile) "education" = some (PyVal.list []))
    ∧ (firstTruthy profile ["skills", "skillsAndEndorsements"] = Option.none →
      dget (sanitize_profile profile) "skills" = some (PyVal.list []))
    ∧ (firstTruthy profile ["certifications", "certificates"] = Option.none →
      dget (sanitize_profile profile) "certifications" = some (PyVal.list []))
    ∧ (firstTruthy profile ["languages", "spokenLanguages"] = Option.none →
      dget (sanitize_profile profile) "languages" = some (PyVal.list []))
    ∧ (firstTruthy profile ["headline", "title"] = Option.none →
      dget (sanitize_profile profile) "headline" = some (PyVal.str ""))
    ∧ (firstTruthy profile ["about", "summary", "description"] = Option.none →
      dget (sanitize_profile profile) "about" = some (PyVal.str ""))
    ∧ (firstTruthy profile ["location", "locationName"] = Option.none →
      dget (sanitize_profile profile) "location" = some (PyVal.str ""))
    ∧ (firstTruthy profile ["profileUrl", "url", "linkedinUrl"] = Option.none →
      dget (sanitize_profile profile) "profileUrl" = some (PyVal.str ""))
    ∧ (firstTruthy profile ["fullName", "firstName", "lastName", "name"]
        = Option.none →
      (dget profile "firstName").isSome = false →
      dget (sanitize_profile profile) "name" = some (PyVal.str ""))
    ∧ ((pyGet (field_mappings.map (sanitizeEntry profile)) "name").truthy
        = false →
      (dget profile "firstName").isSome = true →
      dget (sanitize_profile profile) "name"
        = some (PyVal.str (strStrip
            (pyStr (pyGetD profile "firstName" (PyVal.str "")) ++ " "
              ++ pyStr (pyGetD profile "lastName" (PyVal.str "")))))) := by
  refine ⟨?_, ?_, ?_, ?_, ?_, ?_, ?_, ?_, ?_, ?_, ?_, ?_⟩
  · unfold sanitize_profile
    dsimp only
    split
    · rw [map_fst_setKey, map_fst_sanitize]
      rfl
    · rw [map_fst_sanitize]
      rfl
  · intro hK
    unfold sanitize_profile
    dsimp only
    split
    · rw [dget_setKey_ne _ _ _ _ (by decide)]
      exact dget_sanitized_default profile "experience" _ rfl hK
    · exact dget_sanitized_default profile "experience" _ rfl hK
  · intro hK
    unfold sanitize_profile
    dsimp only
    split
    · rw [dget_setKey_ne _ _ _ _ (by decide)]
      exact dget_sanitized_default profile "education" _ rfl hK
    · exact dget_sanitized_default profile "education" _ rfl hK
  · intro hK
    unfold sanitize_profile
    dsimp only
    split
    · rw [dget_setKey_ne _ _ _ _ (by decide)]
      exact dget_sanitized_default profile "skills" _ rfl hK
    · exact dget_sanitized_default profile "skills" _ rfl hK
  · intro hK
    unfold sanitize_profile
    dsimp only
    split
    · rw [dget_setKey_ne _ _ _ _ (by decide)]
      exact dget_sanitized_default profile "certifications" _ rfl hK
    · exact dget_sanitized_default profile "certifications" _ rfl hK
  · intro hK
    unfold sanitize_profile
    dsimp only
    split
    · rw [dget_setKey_ne _ _ _ _ (by decide)]
      exact dget_sanitized_default profile "languages" _ rfl hK
    · exact dget_sanitized_default profile "languages" _ rfl hK
  · intro hK
    unfold sanitize_profile
    dsimp only
    split
    · rw [dget_setKey_ne _ _ _ _ (by decide)]
      exact dget_sanitized_default profile "headline" _ rfl hK
    · exact dget_sanitized_default profile "headline" _ rfl hK
  · intro hK
    unfold sanitize_profile
    dsimp only
    split
    · rw [dget_setKey_ne _ _ _ _ (by decide)]
      exact dget_sanitized_default profile "about" _ rfl hK
    · exact dget_sanitized_default profile "about" _ rfl hK
  · intro hK
    unfold sanitize_profile
    dsimp only
    split
    · rw [dget_setKey_ne _ _ _ _ (by decide)]
      exact dget_sanitized_default profile "location" _ rfl hK
    · exact dget_sanitized_default profile "location" _ rfl hK
  · intro hK
    unfold sanitize_profile
    dsimp only
    split
    · rw [dget_setKey_ne _ _ _ _ (by decide)]
      exact dget_sanitized_default profile "profileUrl" _ rfl hK
    · exact dget_sanitized_default profile "profileUrl" _ rfl hK
  · intro hK hfn
    unfold sanitize_profile
    dsimp only
    rw [if_neg (by simp [hfn])]
    exact dget_sanitized_default profile "name" _ rfl hK
  · intro htr hfn
    unfold sanitize_profile
    dsimp only
    rw [if_pos ⟨by simp [htr], hfn⟩]
    exact dget_setKey_name profile _

/-- Witness for C10: a profile with only a truthy `headline` gets empty-list
and empty-string defaults for the unmatched keys, and a profile with a falsy
`firstName` and truthy `lastName`-free fields recombines `name` to the
stripped concatenation. -/
theorem sanitize_profile_keys_and_defaults_witness :
    (sanitize_profile [("headline", PyVal.str "Dev")]).map Prod.fst
      = ["name", "headline", "about", "experience", "education", "skills",
         "certifications", "languages", "location", "profileUrl"]
    ∧ dget (sanitize_profile [("headline", PyVal.str "Dev")]) "experience"
      = some (PyVal.list [])
    ∧ dget (sanitize_profile [("headline", PyVal.str "Dev")]) "about"
      = some (PyVal.str "")
    ∧ dget (sanitize_profile [("firstName", PyVal.str "")]) "name"
      = some (PyVal.str (strStrip
          (pyStr (pyGetD [("firstName", PyVal.str "")] "firstName" (PyVal.str "")) ++ " "
            ++ pyStr (pyGetD [("firstName", PyVal.str "")] "lastName" (PyVal.str ""))))) :=
  ⟨(sanitize_profile_keys_and_defaults [("headline", PyVal.str "Dev")]).1,
   (sanitize_profile_keys_and_defaults [("headline", PyVal.str "Dev")]).2.1
     (by decide),
   (sanitize_profile_keys_and_defaults [("headline", PyVal.str "Dev")]).2.2.2.2.2.2.2.1
     (by decide),
   (sanitize_profile_keys_and_defaults
     [("firstName", PyVal.str "")]).2.2.2.2.2.2.2.2.2.2.2
     (by decide) (by decide)⟩

end LinkedinCareerCoach
